import Mathlib

/-!
Verification of the AutoMind fatigue-analyzer core (src/automind.py).

The analyzer state and its operations are embedded shallowly:
floating-point values become exact rationals, wall-clock timestamps
become rational parameters, and the randomness of the steering
simulator is passed in as oracle inputs (the claims under study do not
constrain the random draws).  Python's `%` on nonnegative reals is
embedded as `pymod`.
-/

/-- Constant `AUDIO_SAMPLE_RATE` from automind.py (16 kHz). -/
def AUDIO_SAMPLE_RATE : Nat := 16000

/-- Constant `YAWN_COUNT_THRESHOLD` from automind.py. -/
def YAWN_COUNT_THRESHOLD : Nat := 3

/-- Constant `YAWN_ENERGY_THRESHOLD` from automind.py. -/
def YAWN_ENERGY_THRESHOLD : ℚ := 0.02

/-- The three fatigue levels; the Python code stores them as the
strings "NORMAL", "WARNING", "CRITICAL". -/
inductive FatigueLevel where
  | NORMAL
  | WARNING
  | CRITICAL
  deriving DecidableEq, Repr

/-- State of `FatigueAnalyzer` (automind.py lines 33-45), restricted to
the fields the analyzer logic reads or writes.  `torque_history` embeds
the `deque(maxlen=100)`; `audio_buffer` the numpy sample array. -/
structure AnalyzerState where
  fatigue_level : FatigueLevel
  yawn_count : Nat
  last_update : ℚ
  steering_value : ℚ
  driver_state : String
  audio_buffer : List ℚ
  torque_history : List ℚ
  simulation_speed : ℚ
  deriving DecidableEq, Repr

/-- The state built by `FatigueAnalyzer.__init__` at time `t0`
(automind.py lines 33-45). -/
def initState (t0 : ℚ) : AnalyzerState :=
  { fatigue_level := .NORMAL
    yawn_count := 0
    last_update := t0
    steering_value := 0
    driver_state := "专注驾驶"
    audio_buffer := []
    torque_history := []
    simulation_speed := 1 }

/-- Python's `%` for a positive modulus on rationals:
`a % b = a - b * floor (a / b)`. -/
def pymod (a b : ℚ) : ℚ := a - b * ⌊a / b⌋

/-- `np.mean(buf ** 2)`: the mean of the squared samples
(automind.py line 74). -/
def meanSquare (l : List ℚ) : ℚ := (l.map fun x => x * x).sum / l.length

/-- `add_audio_data` (automind.py lines 47-49): concatenate new samples
onto the buffer unconditionally. -/
def add_audio_data (s : AnalyzerState) (samples : List ℚ) : AnalyzerState :=
  { s with audio_buffer := s.audio_buffer ++ samples }

/-- Append to a `deque(maxlen=100)`: when full, the oldest entry is
evicted from the left (automind.py line 106). -/
def pushHist {α : Type} (h : List α) (x : α) : List α :=
  if h.length < 100 then h ++ [x] else h.tail ++ [x]

/-- Recording of the tick time (automind.py line 68:
`self.last_update = current_time`). -/
def setTime (s : AnalyzerState) (t : ℚ) : AnalyzerState :=
  { s with last_update := t }

/-- Step 1 of `update` (automind.py lines 71-82): if at least
3 seconds of audio are buffered, compute the mean energy of the whole
buffer, increment `yawn_count` when it exceeds the threshold, and clear
the buffer; otherwise leave the state alone. -/
def audioStep (s : AnalyzerState) : AnalyzerState :=
  if AUDIO_SAMPLE_RATE * 3 ≤ s.audio_buffer.length then
    let energy := meanSquare s.audio_buffer
    let s1 := if YAWN_ENERGY_THRESHOLD < energy then
        { s with yawn_count := s.yawn_count + 1 }
      else s
    { s1 with audio_buffer := [] }
  else s

/-- The energy value drained by `audioStep`, when the buffer is ready
(automind.py lines 72-74): `some` of the mean square of the entire
buffer, or `none` when fewer than 3 seconds of samples are buffered. -/
def drainedEnergy (s : AnalyzerState) : Option ℚ :=
  if AUDIO_SAMPLE_RATE * 3 ≤ s.audio_buffer.length then
    some (meanSquare s.audio_buffer)
  else none

/-- Step 2 of `update` (automind.py lines 84-106): store the freshly
simulated steering value and driver label, and append the steering
value to the bounded history.  The simulated values themselves are
random-and-trigonometry driven, so they enter as oracle inputs. -/
def steeringStep (s : AnalyzerState) (steer : ℚ) (dstate : String) : AnalyzerState :=
  { s with steering_value := steer
           driver_state := dstate
           torque_history := pushHist s.torque_history steer }

/-- Step 3 of `update` (automind.py lines 108-114): the fatigue level
as a function of the yawn count, CRITICAL test first. -/
def decideFatigue (yc : Nat) : FatigueLevel :=
  if YAWN_COUNT_THRESHOLD + 1 ≤ yc then .CRITICAL
  else if YAWN_COUNT_THRESHOLD ≤ yc then .WARNING
  else .NORMAL

/-- Applies the fatigue decision to the state. -/
def decisionStep (s : AnalyzerState) : AnalyzerState :=
  { s with fatigue_level := decideFatigue s.yawn_count }

/-- Step 4 of `update` (automind.py lines 116-118): zero the yawn count
whenever wall-clock time modulo 600 falls in the first 3 seconds. -/
def resetStep (s : AnalyzerState) (t : ℚ) : AnalyzerState :=
  if pymod t 600 < 3 then { s with yawn_count := 0 } else s

/-- `FatigueAnalyzer.update` (automind.py lines 60-118) invoked at
wall-clock time `t` with steering-simulator draws `steer`, `dstate`:
a no-op when less than 3 seconds have passed since the last executed
tick, else the four steps in source order. -/
def update (s : AnalyzerState) (t : ℚ) (steer : ℚ) (dstate : String) : AnalyzerState :=
  if t - s.last_update < 3 then s
  else resetStep (decisionStep (steeringStep (audioStep (setTime s t)) steer dstate)) t

/-- SPACE-key handler (automind.py lines 373-377): reset the demo. -/
def cmdReset (s : AnalyzerState) : AnalyzerState :=
  { s with yawn_count := 0
           fatigue_level := .NORMAL
           driver_state := "专注驾驶" }

/-- H-key handler (automind.py lines 378-381): force a simulated yawn,
debounced to once per 2 seconds via the UI-local `last_yawn_sim_time`
(returned as the second component). -/
def cmdForceYawn (s : AnalyzerState) (lastYawnSim t : ℚ) : AnalyzerState × ℚ :=
  if 2 < t - lastYawnSim then
    ({ s with yawn_count := s.yawn_count + 1 }, t)
  else (s, lastYawnSim)

/-- PLUS-key handler (automind.py lines 382-384). -/
def cmdIncSpeed (s : AnalyzerState) : AnalyzerState :=
  { s with simulation_speed := min 3 (s.simulation_speed + 0.2) }

/-- MINUS-key handler (automind.py lines 385-387). -/
def cmdDecSpeed (s : AnalyzerState) : AnalyzerState :=
  { s with simulation_speed := max 0.5 (s.simulation_speed - 0.2) }

/-- A speed-adjustment keystroke. -/
inductive SpeedCmd where
  | inc
  | dec
  deriving DecidableEq, Repr

/-- Apply one speed keystroke. -/
def applySpeedCmd (s : AnalyzerState) : SpeedCmd → AnalyzerState
  | .inc => cmdIncSpeed s
  | .dec => cmdDecSpeed s

/-! ### Helper lemmas about the individual tick steps -/

lemma update_eq_of_executed (s : AnalyzerState) (t steer : ℚ) (d : String)
    (h : 3 ≤ t - s.last_update) :
    update s t steer d =
      resetStep (decisionStep (steeringStep (audioStep (setTime s t)) steer d)) t := by
  rw [update, if_neg (not_lt.mpr h)]

@[simp] lemma setTime_yawn (s : AnalyzerState) (t : ℚ) :
    (setTime s t).yawn_count = s.yawn_count := rfl

@[simp] lemma setTime_buffer (s : AnalyzerState) (t : ℚ) :
    (setTime s t).audio_buffer = s.audio_buffer := rfl

@[simp] lemma audioStep_last_update (s : AnalyzerState) :
    (audioStep s).last_update = s.last_update := by
  simp only [audioStep]; split_ifs <;> rfl

@[simp] lemma audioStep_fatigue (s : AnalyzerState) :
    (audioStep s).fatigue_level = s.fatigue_level := by
  simp only [audioStep]; split_ifs <;> rfl

@[simp] lemma audioStep_buffer (s : AnalyzerState) :
    (audioStep s).audio_buffer =
      if AUDIO_SAMPLE_RATE * 3 ≤ s.audio_buffer.length then [] else s.audio_buffer := by
  simp only [audioStep]; split_ifs <;> simp_all

@[simp] lemma audioStep_yawn (s : AnalyzerState) :
    (audioStep s).yawn_count =
      if AUDIO_SAMPLE_RATE * 3 ≤ s.audio_buffer.length ∧
          YAWN_ENERGY_THRESHOLD < meanSquare s.audio_buffer
      then s.yawn_count + 1 else s.yawn_count := by
  simp only [audioStep]; split_ifs <;> simp_all

@[simp] lemma steeringStep_yawn (s : AnalyzerState) (a : ℚ) (b : String) :
    (steeringStep s a b).yawn_count = s.yawn_count := rfl

@[simp] lemma steeringStep_fatigue (s : AnalyzerState) (a : ℚ) (b : String) :
    (steeringStep s a b).fatigue_level = s.fatigue_level := rfl

@[simp] lemma steeringStep_buffer (s : AnalyzerState) (a : ℚ) (b : String) :
    (steeringStep s a b).audio_buffer = s.audio_buffer := rfl

@[simp] lemma steeringStep_last_update (s : AnalyzerState) (a : ℚ) (b : String) :
    (steeringStep s a b).last_update = s.last_update := rfl

@[simp] lemma decisionStep_yawn (s : AnalyzerState) :
    (decisionStep s).yawn_count = s.yawn_count := rfl

@[simp] lemma decisionStep_fatigue (s : AnalyzerState) :
    (decisionStep s).fatigue_level = decideFatigue s.yawn_count := rfl

@[simp] lemma decisionStep_buffer (s : AnalyzerState) :
    (decisionStep s).audio_buffer = s.audio_buffer := rfl

@[simp] lemma decisionStep_last_update (s : AnalyzerState) :
    (decisionStep s).last_update = s.last_update := rfl

@[simp] lemma resetStep_yawn (s : AnalyzerState) (t : ℚ) :
    (resetStep s t).yawn_count = if pymod t 600 < 3 then 0 else s.yawn_count := by
  rw [resetStep]; split_ifs <;> rfl

@[simp] lemma resetStep_fatigue (s : AnalyzerState) (t : ℚ) :
    (resetStep s t).fatigue_level = s.fatigue_level := by
  rw [resetStep]; split_ifs <;> rfl

@[simp] lemma resetStep_buffer (s : AnalyzerState) (t : ℚ) :
    (resetStep s t).audio_buffer = s.audio_buffer := by
  rw [resetStep]; split_ifs <;> rfl

@[simp] lemma resetStep_last_update (s : AnalyzerState) (t : ℚ) :
    (resetStep s t).last_update = s.last_update := by
  rw [resetStep]; split_ifs <;> rfl

@[simp] lemma update_last_update_of_executed (s : AnalyzerState) (t steer : ℚ) (d : String)
    (h : 3 ≤ t - s.last_update) :
    (update s t steer d).last_update = t := by
  rw [update_eq_of_executed s t steer d h]; simp [setTime]

lemma update_noop (s : AnalyzerState) (t steer : ℚ) (d : String)
    (h : t - s.last_update < 3) : update s t steer d = s := by
  rw [update, if_pos h]

lemma meanSquare_replicate_zero (n : Nat) : meanSquare (List.replicate n (0:ℚ)) = 0 := by
  simp [meanSquare]

/-! ### Claim theorems -/

/-- C4: invoking `update` less than 3 real-time seconds after the
previous executed tick is a no-op — every field of the analyzer state
is returned unchanged. -/
theorem tick_rate_limiter_noop (s : AnalyzerState) (t steer : ℚ) (d : String)
    (h : t - s.last_update < 3) : update s t steer d = s :=
  update_noop s t steer d h

/-- Witness for C4: one second after initialization the tick leaves the
fresh state untouched. -/
theorem tick_rate_limiter_noop_witness :
    update (initState 0) 1 (7/10) "x" = initState 0 :=
  tick_rate_limiter_noop (initState 0) 1 (7/10) "x" (by norm_num [initState])

/-- C8: the reset command always produces `yawn_count = 0` and
`fatigue_level = NORMAL`, whatever the prior state held. -/
theorem reset_command_clears_state (s : AnalyzerState) :
    (cmdReset s).yawn_count = 0 ∧ (cmdReset s).fatigue_level = .NORMAL :=
  ⟨rfl, rfl⟩

/-- C1: after an executed tick the fatigue level is determined by the
yawn count at decision time (after the audio step): CRITICAL for ≥ 4,
WARNING for 3, NORMAL for 0, 1, 2, with the CRITICAL branch tested
first. -/
theorem fatigue_level_from_yawn_count (s : AnalyzerState) (t steer : ℚ) (d : String)
    (h : 3 ≤ t - s.last_update) :
    (update s t steer d).fatigue_level =
      decideFatigue ((audioStep (setTime s t)).yawn_count) ∧
    (4 ≤ (audioStep (setTime s t)).yawn_count →
      (update s t steer d).fatigue_level = .CRITICAL) ∧
    (3 ≤ (audioStep (setTime s t)).yawn_count →
      (audioStep (setTime s t)).yawn_count < 4 →
      (update s t steer d).fatigue_level = .WARNING) ∧
    ((audioStep (setTime s t)).yawn_count < 3 →
      (update s t steer d).fatigue_level = .NORMAL) := by
  have hbase : (update s t steer d).fatigue_level =
      decideFatigue ((audioStep (setTime s t)).yawn_count) := by
    rw [update_eq_of_executed s t steer d h]; simp
  refine ⟨hbase, ?_, ?_, ?_⟩
  · intro h1; rw [hbase]
    simp only [decideFatigue, YAWN_COUNT_THRESHOLD]
    split_ifs <;> first | rfl | omega
  · intro h1 h2; rw [hbase]
    simp only [decideFatigue, YAWN_COUNT_THRESHOLD]
    split_ifs <;> first | rfl | omega
  · intro h1; rw [hbase]
    simp only [decideFatigue, YAWN_COUNT_THRESHOLD]
    split_ifs <;> first | rfl | omega

/-- Witness for C1: a state holding 3 yawns and no buffered audio
ticks into WARNING. -/
theorem fatigue_level_from_yawn_count_witness :
    (update { initState 0 with yawn_count := 3 } 10 0 "d").fatigue_level = .WARNING := by
  have h := fatigue_level_from_yawn_count { initState 0 with yawn_count := 3 } 10 0 "d"
    (by norm_num [initState])
  exact h.2.2.1 (by norm_num [setTime, initState, AUDIO_SAMPLE_RATE])
    (by norm_num [setTime, initState, AUDIO_SAMPLE_RATE])

/-- C2: when at least 3 seconds of audio (at 16 kHz) are buffered, the
drain step of an executed tick produces the mean of the squares of the
entire buffer and leaves the buffer empty; with less audio no energy is
produced and the buffer survives the tick unchanged. -/
theorem drain_energy_full_buffer (s : AnalyzerState) (t steer : ℚ) (d : String)
    (ht : 3 ≤ t - s.last_update) :
    (AUDIO_SAMPLE_RATE * 3 ≤ s.audio_buffer.length →
      drainedEnergy s = some (meanSquare s.audio_buffer) ∧
      meanSquare s.audio_buffer * (s.audio_buffer.length : ℚ) =
        ((s.audio_buffer.map fun x => x * x).sum) ∧
      (update s t steer d).audio_buffer = []) ∧
    (s.audio_buffer.length < AUDIO_SAMPLE_RATE * 3 →
      drainedEnergy s = none ∧
      (update s t steer d).audio_buffer = s.audio_buffer) := by
  constructor
  · intro hb
    refine ⟨by simp [drainedEnergy, hb], ?_, ?_⟩
    · have hne : ((s.audio_buffer.length : ℚ)) ≠ 0 := by
        have : s.audio_buffer.length ≠ 0 := by
          simp only [AUDIO_SAMPLE_RATE] at hb; omega
        exact_mod_cast this
      rw [meanSquare, div_mul_cancel₀ _ hne]
    · rw [update_eq_of_executed s t steer d ht]; simp [hb]
  · intro hb
    have hb' : ¬ AUDIO_SAMPLE_RATE * 3 ≤ s.audio_buffer.length := not_le.mpr hb
    refine ⟨by simp [drainedEnergy, hb'], ?_⟩
    rw [update_eq_of_executed s t steer d ht]; simp [hb']

/-- Witness for C2: 48000 buffered samples are fully drained by a tick. -/
theorem drain_energy_full_buffer_witness :
    (update { initState 0 with audio_buffer := List.replicate 48000 (0:ℚ) }
      10 0 "d").audio_buffer = [] :=
  ((drain_energy_full_buffer { initState 0 with audio_buffer := List.replicate 48000 (0:ℚ) }
      10 0 "d" (by norm_num [initState])).1
    (by norm_num [initState, AUDIO_SAMPLE_RATE])).2.2

/-- C3: on an executed tick the yawn count grows by exactly 1 when a
drained energy value exists and exceeds 0.02, and is otherwise left
alone by the audio step — never more than one increment per tick; in
particular 3.5 seconds of all-zero samples drain to energy 0 and leave
the count unchanged.  (The tick is taken outside the 600-second reset
window so that only the audio step touches the count.) -/
theorem yawn_increment_rule (s : AnalyzerState) (t steer : ℚ) (d : String)
    (ht : 3 ≤ t - s.last_update) (hr : ¬ pymod t 600 < 3) :
    ((update s t steer d).yawn_count =
      match drainedEnergy s with
      | some e => if YAWN_ENERGY_THRESHOLD < e then s.yawn_count + 1 else s.yawn_count
      | none => s.yawn_count) ∧
    (update s t steer d).yawn_count ≤ s.yawn_count + 1 ∧
    (s.audio_buffer = List.replicate 56000 0 →
      drainedEnergy s = some 0 ∧
      (update s t steer d).yawn_count = s.yawn_count) := by
  have hu : (update s t steer d).yawn_count =
      if AUDIO_SAMPLE_RATE * 3 ≤ s.audio_buffer.length ∧
          YAWN_ENERGY_THRESHOLD < meanSquare s.audio_buffer
      then s.yawn_count + 1 else s.yawn_count := by
    rw [update_eq_of_executed s t steer d ht]; simp [hr]
  refine ⟨?_, ?_, ?_⟩
  · rw [hu, drainedEnergy]
    by_cases hb : AUDIO_SAMPLE_RATE * 3 ≤ s.audio_buffer.length
    · by_cases he : YAWN_ENERGY_THRESHOLD < meanSquare s.audio_buffer
      · simp [hb, he]
      · simp [hb, he]
    · simp [hb]
  · rw [hu]; split_ifs <;> omega
  · intro hbuf
    have hms : meanSquare s.audio_buffer = 0 := by
      rw [hbuf]; exact meanSquare_replicate_zero 56000
    have hlen : AUDIO_SAMPLE_RATE * 3 ≤ s.audio_buffer.length := by
      rw [hbuf]; simp only [List.length_replicate, AUDIO_SAMPLE_RATE]; norm_num
    have hne : ¬ YAWN_ENERGY_THRESHOLD < meanSquare s.audio_buffer := by
      rw [hms]; norm_num [YAWN_ENERGY_THRESHOLD]
    refine ⟨by simp [drainedEnergy, hlen, hms], ?_⟩
    rw [hu, if_neg]
    intro hc
    exact hne hc.2

/-- Witness for C3: 56000 zero samples (3.5 s of silence) drain to
energy 0 and do not change the yawn count. -/
theorem yawn_increment_rule_witness :
    drainedEnergy { initState 0 with audio_buffer := List.replicate 56000 (0:ℚ) } = some 0 ∧
    (update { initState 0 with audio_buffer := List.replicate 56000 (0:ℚ) }
        10 0 "d").yawn_count =
      ({ initState 0 with audio_buffer := List.replicate 56000 (0:ℚ) } : AnalyzerState).yawn_count :=
  (yawn_increment_rule { initState 0 with audio_buffer := List.replicate 56000 (0:ℚ) }
      10 0 "d" (by norm_num [initState])
      (by norm_num [pymod, Rat.floor_def])).2.2 rfl

lemma speed_invariant (cmds : List SpeedCmd) :
    ∀ s : AnalyzerState, 0.5 ≤ s.simulation_speed → s.simulation_speed ≤ 3 →
      0.5 ≤ (cmds.foldl applySpeedCmd s).simulation_speed ∧
      (cmds.foldl applySpeedCmd s).simulation_speed ≤ 3 := by
  induction cmds with
  | nil => intro s h1 h2; exact ⟨h1, h2⟩
  | cons c rest ih =>
    intro s h1 h2
    rw [List.foldl_cons]
    cases c with
    | inc =>
      apply ih
      · simp only [applySpeedCmd, cmdIncSpeed]
        exact le_min (by norm_num) (by linarith)
      · simp only [applySpeedCmd, cmdIncSpeed]
        exact min_le_left _ _
    | dec =>
      apply ih
      · simp only [applySpeedCmd, cmdDecSpeed]
        exact le_max_left _ _
      · simp only [applySpeedCmd, cmdDecSpeed]
        exact max_le (by norm_num) (by linarith)

/-- C7: starting from the initial simulation speed 1.0, every sequence
of increase/decrease keystrokes (steps of 0.2, clamped) keeps the
speed inside the closed interval [0.5, 3.0]. -/
theorem simulation_speed_clamped (t0 : ℚ) (cmds : List SpeedCmd) :
    0.5 ≤ (cmds.foldl applySpeedCmd (initState t0)).simulation_speed ∧
    (cmds.foldl applySpeedCmd (initState t0)).simulation_speed ≤ 3 :=
  speed_invariant cmds (initState t0) (by norm_num [initState]) (by norm_num [initState])

/-- C9: the forced-yawn command adds exactly one yawn when accepted
(more than 2 seconds since the prior accepted press), is a complete
no-op otherwise, never touches the tick's `last_update` field, and its
acceptance does not depend on `last_update` at all. -/
theorem force_yawn_debounce (s : AnalyzerState) (lastY t : ℚ) :
    (2 < t - lastY →
      cmdForceYawn s lastY t = ({ s with yawn_count := s.yawn_count + 1 }, t)) ∧
    (t - lastY ≤ 2 → cmdForceYawn s lastY t = (s, lastY)) ∧
    (cmdForceYawn s lastY t).1.last_update = s.last_update ∧
    (∀ lu : ℚ,
      (cmdForceYawn { s with last_update := lu } lastY t).1.yawn_count =
        (cmdForceYawn s lastY t).1.yawn_count ∧
      (cmdForceYawn { s with last_update := lu } lastY t).2 =
        (cmdForceYawn s lastY t).2) := by
  refine ⟨?_, ?_, ?_, ?_⟩
  · intro h; rw [cmdForceYawn, if_pos h]
  · intro h; rw [cmdForceYawn, if_neg (not_lt.mpr h)]
  · rw [cmdForceYawn]; split_ifs <;> rfl
  · intro lu
    rw [cmdForceYawn, cmdForceYawn]
    split_ifs <;> exact ⟨rfl, rfl⟩

/-- Witness for C9: a press 5 seconds after the last one is accepted
and adds exactly one yawn. -/
theorem force_yawn_debounce_witness :
    cmdForceYawn (initState 0) 0 5 =
      ({ initState 0 with yawn_count := (initState 0).yawn_count + 1 }, 5) :=
  (force_yawn_debounce (initState 0) 0 5).1 (by norm_num)

lemma foldl_pushHist_eq {α : Type} (vs : List α) :
    ∀ h : List α, h.length ≤ 100 →
      List.foldl pushHist h vs = (h ++ vs).drop ((h ++ vs).length - 100) := by
  induction vs with
  | nil =>
    intro h hh
    have h0 : h.length - 100 = 0 := by omega
    simp [h0]
  | cons x rest ih =>
    intro h hh
    rw [List.foldl_cons]
    by_cases hlen : h.length < 100
    · rw [show pushHist h x = h ++ [x] from by rw [pushHist, if_pos hlen]]
      rw [ih (h ++ [x]) (by simp; omega)]
      simp [List.append_assoc]
    · rw [show pushHist h x = h.tail ++ [x] from by rw [pushHist, if_neg hlen]]
      have hlen' : h.length = 100 := by omega
      obtain ⟨a, h', rfl⟩ : ∃ a h', h = a :: h' := by
        cases h with
        | nil => simp at hlen'
        | cons a h' => exact ⟨a, h', rfl⟩
      simp only [List.tail_cons]
      have l1 : h'.length = 99 := by simp at hlen'; omega
      rw [ih (h' ++ [x]) (by simp [l1])]
      have e1 : (h' ++ [x]) ++ rest = h' ++ x :: rest := by simp
      rw [e1]
      have hL : (h' ++ x :: rest).length - 100 = rest.length := by
        simp only [List.length_append, List.length_cons, l1]; omega
      rw [hL, List.cons_append]
      have hR : (a :: (h' ++ x :: rest)).length - 100 = rest.length + 1 := by
        simp only [List.length_append, List.length_cons, l1]; omega
      rw [hR, List.drop_succ_cons]

/-- C6: the steering history built by successive bounded appends never
holds more than 100 entries, and once at least 100 values have been
appended it holds exactly the last 100 of them in insertion order. -/
theorem steering_history_bounded {α : Type} (vs : List α) :
    (List.foldl pushHist ([] : List α) vs).length ≤ 100 ∧
    (100 ≤ vs.length →
      List.foldl pushHist ([] : List α) vs = vs.drop (vs.length - 100)) := by
  have h := foldl_pushHist_eq vs [] (by simp)
  simp only [List.nil_append] at h
  constructor
  · rw [h, List.length_drop]; omega
  · intro _; exact h

/-- Witness for C6: appending 150 values leaves exactly the last 100. -/
theorem steering_history_bounded_witness :
    List.foldl pushHist ([] : List Nat) (List.range 150) = (List.range 150).drop 50 := by
  have h := (steering_history_bounded (List.range 150)).2 (by simp)
  simpa using h

/-- C5 counterexample: a run whose only two executed ticks both fall in
the wall-clock window [600, 1200) — at times 603 and 1199, a valid
cadence since they are ≥ 3 s apart — and on which the yawn count (5
throughout) is never reset: the reset step fires zero times in the
window, not exactly once. -/
theorem yawn_reset_not_exactly_once :
    (3:ℚ) ≤ 603 - ({ initState 0 with yawn_count := 5, last_update := 599 } :
        AnalyzerState).last_update ∧
    ((600:ℚ) ≤ 603 ∧ (603:ℚ) < 1200) ∧ ((600:ℚ) ≤ 1199 ∧ (1199:ℚ) < 1200) ∧
    (3:ℚ) ≤ 1199 - 603 ∧
    (update { initState 0 with yawn_count := 5, last_update := 599 } 603 0 "d").last_update
      = 603 ∧
    (update { initState 0 with yawn_count := 5, last_update := 599 } 603 0 "d").yawn_count
      = 5 ∧
    (update (update { initState 0 with yawn_count := 5, last_update := 599 } 603 0 "d")
        1199 0 "d").last_update = 1199 ∧
    (update (update { initState 0 with yawn_count := 5, last_update := 599 } 603 0 "d")
        1199 0 "d").yawn_count = 5 := by
  have h1 : update { initState 0 with yawn_count := 5, last_update := 599 } 603 0 "d" =
      { fatigue_level := .CRITICAL, yawn_count := 5, last_update := 603,
        steering_value := 0, driver_state := "d", audio_buffer := [],
        torque_history := [0], simulation_speed := 1 } := by
    rw [update, if_neg (by norm_num [initState])]
    norm_num [resetStep, decisionStep, steeringStep, audioStep, setTime, initState,
      AUDIO_SAMPLE_RATE, YAWN_COUNT_THRESHOLD, decideFatigue, pushHist, pymod,
      Rat.floor_def]
  have h2 : update
      ({ fatigue_level := .CRITICAL, yawn_count := 5, last_update := 603,
         steering_value := 0, driver_state := "d", audio_buffer := [],
         torque_history := [0], simulation_speed := 1 } : AnalyzerState) 1199 0 "d" =
      { fatigue_level := .CRITICAL, yawn_count := 5, last_update := 1199,
        steering_value := 0, driver_state := "d", audio_buffer := [],
        torque_history := [0, 0], simulation_speed := 1 } := by
    rw [update, if_neg (by norm_num)]
    norm_num [resetStep, decisionStep, steeringStep, audioStep, setTime,
      AUDIO_SAMPLE_RATE, YAWN_COUNT_THRESHOLD, decideFatigue, pushHist, pymod,
      Rat.floor_def]
  rw [h1, h2]
  refine ⟨by norm_num [initState], by norm_num, by norm_num, by norm_num,
    rfl, rfl, rfl, rfl⟩

/-- C5 amended: on an executed tick the reset fires exactly when
wall-clock time modulo 600 falls in the first 3 seconds of a window
(zeroing the yawn count, otherwise leaving it to the audio step), and
any two wall-clock times at which it can fire within the same aligned
600-second window are less than 3 seconds apart — so, executed ticks
being at least 3 seconds apart, the reset fires at most once per
window; it can also skip a window entirely. -/
theorem yawn_reset_window_amended :
    (∀ (s : AnalyzerState) (t steer : ℚ) (d : String), 3 ≤ t - s.last_update →
      ((pymod t 600 < 3 → (update s t steer d).yawn_count = 0) ∧
       (¬ pymod t 600 < 3 →
         (update s t steer d).yawn_count = (audioStep (setTime s t)).yawn_count))) ∧
    (∀ t₁ t₂ : ℚ, pymod t₁ 600 < 3 → pymod t₂ 600 < 3 →
      ⌊t₁ / 600⌋ = ⌊t₂ / 600⌋ → |t₂ - t₁| < 3) := by
  constructor
  · intro s t steer d ht
    rw [update_eq_of_executed s t steer d ht]
    constructor
    · intro hm; simp [hm]
    · intro hm; simp [hm]
  · intro t₁ t₂ h1 h2 hw
    have hw' : ((⌊t₁ / 600⌋ : ℤ) : ℚ) = ((⌊t₂ / 600⌋ : ℤ) : ℚ) := by exact_mod_cast hw
    rw [pymod] at h1 h2
    have e1 : (600:ℚ) * (t₁ / 600) = t₁ := by ring
    have e2 : (600:ℚ) * (t₂ / 600) = t₂ := by ring
    have f1 : (600:ℚ) * ⌊t₁ / 600⌋ ≤ t₁ := by
      have h := mul_le_mul_of_nonneg_left (Int.floor_le (t₁ / 600))
        (by norm_num : (0:ℚ) ≤ 600)
      rwa [e1] at h
    have f2 : (600:ℚ) * ⌊t₂ / 600⌋ ≤ t₂ := by
      have h := mul_le_mul_of_nonneg_left (Int.floor_le (t₂ / 600))
        (by norm_num : (0:ℚ) ≤ 600)
      rwa [e2] at h
    rw [abs_sub_lt_iff]
    constructor <;> linarith

/-- Witness for the amended C5: the tick at time 600 resets a fresh
analyzer's yawn count, and the two firing times 1200 and 1201 in one
window are less than 3 seconds apart. -/
theorem yawn_reset_window_amended_witness :
    (update (initState 0) 600 0 "d").yawn_count = 0 ∧ |(1201:ℚ) - 1200| < 3 :=
  ⟨(yawn_reset_window_amended.1 (initState 0) 600 0 "d" (by norm_num [initState])).1
      (by norm_num [pymod, Rat.floor_def]),
   yawn_reset_window_amended.2 1200 1201
      (by norm_num [pymod, Rat.floor_def])
      (by norm_num [pymod, Rat.floor_def])
      (by norm_num [Rat.floor_def])⟩

/-- C10: within one executed tick the fatigue decision reads the yawn
count before the 600-second reset zeroes it, so a tick on which the
reset fires while at least 3 yawns are counted at decision time leaves
`yawn_count = 0` together with a WARNING or CRITICAL fatigue level, and
any tick arriving less than 3 seconds later changes nothing. -/
theorem decision_precedes_reset (s : AnalyzerState) (t steer : ℚ) (d : String)
    (ht : 3 ≤ t - s.last_update) (hr : pymod t 600 < 3)
    (hy : 3 ≤ (audioStep (setTime s t)).yawn_count) :
    (update s t steer d).yawn_count = 0 ∧
    ((update s t steer d).fatigue_level = .WARNING ∨
      (update s t steer d).fatigue_level = .CRITICAL) ∧
    (∀ (s2 : ℚ) (d2 : String) (t2 : ℚ), t2 - t < 3 →
      update (update s t steer d) t2 s2 d2 = update s t steer d) := by
  have hu := update_eq_of_executed s t steer d ht
  refine ⟨?_, ?_, ?_⟩
  · rw [hu]; simp [hr]
  · rw [hu]
    simp only [resetStep_fatigue, decisionStep_fatigue, steeringStep_yawn]
    rcases Nat.lt_or_ge ((audioStep (setTime s t)).yawn_count) 4 with h4 | h4
    · left
      simp only [decideFatigue, YAWN_COUNT_THRESHOLD]
      rw [if_neg (by omega), if_pos (by omega)]
    · right
      simp only [decideFatigue, YAWN_COUNT_THRESHOLD]
      rw [if_pos (by omega)]
  · intro s2 d2 t2 hlt
    apply update_noop
    rw [update_last_update_of_executed s t steer d ht]
    exact hlt

/-- Witness for C10: at time 600 a state holding 3 yawns is reset to 0
while showing WARNING, and a tick one second later is a no-op. -/
theorem decision_precedes_reset_witness :
    (update { initState 0 with yawn_count := 3 } 600 0 "d").yawn_count = 0 ∧
    ((update { initState 0 with yawn_count := 3 } 600 0 "d").fatigue_level = .WARNING ∨
      (update { initState 0 with yawn_count := 3 } 600 0 "d").fatigue_level = .CRITICAL) ∧
    update (update { initState 0 with yawn_count := 3 } 600 0 "d") 601 0 "e" =
      update { initState 0 with yawn_count := 3 } 600 0 "d" := by
  have h := decision_precedes_reset { initState 0 with yawn_count := 3 } 600 0 "d"
    (by norm_num [initState])
    (by norm_num [pymod, Rat.floor_def])
    (by norm_num [setTime, initState, AUDIO_SAMPLE_RATE])
  exact ⟨h.1, h.2.1, h.2.2 0 "e" 601 (by norm_num)⟩
